import Mathlib

/-!
# Shallow embedding of the PN5180 NFC driver

This file embeds the parts of the PN5180 Arduino library (PN5180.cpp,
PN5180ISO14443.cpp, PN5180ISO15693.cpp) that the specification claims talk
about, and proves or refutes each claim.

Modelling conventions:

* The SPI transport is an oracle: a list of pending device responses
  (`none` = the exchange fails/times out, `some bytes` = the device answered
  with `bytes`).  Every `transceiveCommand` invocation consumes one entry and
  appends the issued request frame to a log, so "no bus activity" is the
  statement that the log is unchanged.
* Received buffers are pre-filled with the sentinel `0xFF` before the SPI
  transfer (mirroring the `memset(recvBuffer, 0xFF, recvBufferLen)` in
  `PN5180::transceiveCommand`), hence `rdPad`.
* Machine integers are modelled as `Nat`/`Int` with explicit `% 2^w` where
  the C code can overflow or truncate; C `int` parameters that can be
  negative (such as the `len` of `readEEprom`/`readData`) are `Int`.
* Register addresses come from the chip interface header (`PN5180.h`); the
  claims only depend on their identity, not their numeric values.
-/

set_option autoImplicit false

namespace PN5180

/-- `SYSTEM_CONFIG` register address (PN5180.h). -/
def SYSTEM_CONFIG : Nat := 0x00

/-- `RF_STATUS` register address (PN5180.h). -/
def RF_STATUS : Nat := 0x1d

/-- `RX_STATUS` register address (PN5180.h). -/
def RX_STATUS : Nat := 0x13

/-- `TX_CONFIG` register address (PN5180.h). -/
def TX_CONFIG : Nat := 0x18

/-- `RX_IRQ_STAT` bit mask (PN5180.h): end-of-frame received. -/
def RX_IRQ_STAT : Nat := 1

/-- Little-endian byte decomposition of a 32-bit value, as transmitted for all
4-byte register payloads ("LSB first"). -/
def le4 (v : Nat) : List Nat := [v % 256, v / 256 % 256, v / 65536 % 256, v / 16777216 % 256]

/-- Reassemble a little-endian 4-byte response into a 32-bit value. -/
def word32 (l : List Nat) : Nat :=
  l.getD 0 0 + 256 * l.getD 1 0 + 65536 * l.getD 2 0 + 16777216 * l.getD 3 0

/-- The `n` bytes a receive buffer holds after an SPI transfer that delivered
`resp`: bytes beyond `resp` keep the `0xFF` sentinel the buffer was pre-filled
with. -/
def rdPad (resp : List Nat) (n : Nat) : List Nat :=
  (List.range n).map fun i => resp.getD i 0xFF

/-- Write `bytes` into `buf` starting at offset `off` (a C `memcpy` onto a
caller-owned buffer; writes beyond the end of `buf` are dropped). -/
def wrAt : List Nat → Nat → List Nat → List Nat
  | buf, _, [] => buf
  | buf, off, x :: xs => wrAt (buf.set off x) (off + 1) xs

/-- The `TRANSCEIVE_STATE` field of the `RF_STATUS` register
(`PN5180TransceiveStat`, documented in `PN5180::getTransceiveState`). -/
inductive TransceiveStat where
  | idle
  | waitTransmit
  | transmitting
  | waitReceive
  | waitForData
  | receiving
  | loopBack
  | reserved
deriving DecidableEq, Repr

/-- Decode the 3-bit transceive-state field. -/
def decodeTS : Nat → TransceiveStat
  | 0 => .idle
  | 1 => .waitTransmit
  | 2 => .transmitting
  | 3 => .waitReceive
  | 4 => .waitForData
  | 5 => .receiving
  | 6 => .loopBack
  | _ => .reserved

/-- The SPI bus: the oracle of pending device responses, and the log of
request frames issued so far. -/
structure Bus where
  pend : List (Option (List Nat))
  log : List (List Nat)
deriving DecidableEq, Repr

/-- One `PN5180::transceiveCommand` exchange at the command layer: log the
request frame, consume the next oracle entry, and pad a successful answer to
the requested receive length. -/
def busTake (b : Bus) (frame : List Nat) (recvLen : Nat) : Option (List Nat) × Bus :=
  match b.pend with
  | [] => (none, { pend := [], log := b.log ++ [frame] })
  | r :: rest => (r.map (fun bytes => rdPad bytes recvLen), { pend := rest, log := b.log ++ [frame] })

/-- `WRITE_REGISTER_OR_MASK` (0x01) request frame. -/
def writeRegisterOrMaskFrame (reg mask : Nat) : List Nat := 1 :: reg :: le4 mask

/-- `WRITE_REGISTER_AND_MASK` (0x02) request frame. -/
def writeRegisterAndMaskFrame (reg mask : Nat) : List Nat := 2 :: reg :: le4 mask

/-- `READ_REGISTER` (0x04) request frame. -/
def readRegisterFrame (reg : Nat) : List Nat := [4, reg]

/-- `READ_EEPROM` (0x07) request frame; the C code narrows the `int` length
to `uint8_t`. -/
def readEEpromFrame (addr : Nat) (len : Int) : List Nat := [7, addr, (len % 256).toNat]

/-- `SEND_DATA` (0x09) request frame built by `PN5180::cmd_SendData`:
command code, number of valid bits in the last byte, then the first `len`
payload bytes. -/
def sendDataFrame (validBits : Nat) (data : List Nat) (len : Nat) : List Nat :=
  9 :: validBits :: data.take len

/-- `READ_DATA` (0x0A) request frame. -/
def readDataFrame : List Nat := [10, 0]

/-- `MIFARE_AUTHENTICATE` (0x0C) request frame: command code, 6 key bytes,
key type, block number, 4 UID bytes. -/
def mifareAuthenticateFrame (blockNo : Nat) (key : List Nat) (keyType : Nat) (uid : List Nat) : List Nat :=
  12 :: ((List.range 6).map fun i => key.getD i 0)
     ++ keyType :: blockNo :: ((List.range 4).map fun i => uid.getD i 0)

/-- `PN5180::writeRegisterWithOrMask`. -/
def writeRegisterWithOrMask (b : Bus) (reg mask : Nat) : Bool × Bus :=
  let r := busTake b (writeRegisterOrMaskFrame reg mask) 0
  (r.1.isSome, r.2)

/-- `PN5180::writeRegisterWithAndMask`. -/
def writeRegisterWithAndMask (b : Bus) (reg mask : Nat) : Bool × Bus :=
  let r := busTake b (writeRegisterAndMaskFrame reg mask) 0
  (r.1.isSome, r.2)

/-- `PN5180::readRegister`: a 2-byte request with a 4-byte little-endian
response. -/
def readRegister (b : Bus) (reg : Nat) : Option Nat × Bus :=
  let r := busTake b (readRegisterFrame reg) 4
  (r.1.map word32, r.2)

/-- `PN5180::getTransceiveState`: read `RF_STATUS` and extract the 3-bit
transceive-state field; a failed register read yields state 0 (idle). -/
def getTransceiveState (b : Bus) : TransceiveStat × Bus :=
  let r := readRegister b RF_STATUS
  match r.1 with
  | none => (.idle, r.2)
  | some v => (decodeTS ((v >>> 24) &&& 7), r.2)

/-- `PN5180::cmd_SendData`: issue the buffered-send command frame. -/
def cmd_SendData (b : Bus) (data : List Nat) (len : Nat) (validBits : Nat) : Bool × Bus :=
  let r := busTake b (sendDataFrame validBits data len) 0
  (r.1.isSome, r.2)

/-- `PN5180::sendData`: reject payloads over 260 bytes, force the
transceiver to Idle/StopCom via an AND-mask write, select the Transceive
command via an OR-mask write, check the transceiver is in `WaitTransmit`,
then issue the buffered-send command. -/
def sendData (b : Bus) (data : List Nat) (len : Nat) (validBits : Nat) : Bool × Bus :=
  if 260 < len then (false, b)
  else
    let r1 := writeRegisterWithAndMask b SYSTEM_CONFIG 0xfffffff8
    if ¬ r1.1 then (false, r1.2)
    else
      let r2 := writeRegisterWithOrMask r1.2 SYSTEM_CONFIG 0x00000003
      if ¬ r2.1 then (false, r2.2)
      else
        let r3 := getTransceiveState r2.2
        if r3.1 ≠ .waitTransmit then (false, r3.2)
        else cmd_SendData r3.2 data len validBits

/-- `PN5180::readEEprom`: reject any read reaching beyond EEPROM address 254
before any bus activity, otherwise issue the read-EEPROM command. -/
def readEEprom (b : Bus) (addr : Nat) (len : Int) : Bool × Bus :=
  if 254 < addr ∨ 254 < (addr : Int) + len then (false, b)
  else
    let r := busTake b (readEEpromFrame addr len) len.toNat
    (r.1.isSome, r.2)

/-- Which receive buffer `PN5180::readData` hands out. -/
inductive BufKind where
  | static16
  | dynamic508
deriving DecidableEq, Repr

/-- `PN5180::readData(int len)`: reject `len` outside `[0, 508]` before any
bus activity; small reads (`len ≤ 16`) use the fixed 16-byte scratch buffer,
larger ones the 508-byte buffer that is allocated at most once
(`dynAllocated` is the `readBufferDynamic508` state, `allocOk` whether a
fresh `malloc` would succeed).  Returns the buffer kind and contents, the
bus, and the updated allocation state. -/
def readData (b : Bus) (len : Int) (dynAllocated allocOk : Bool) :
    Option (BufKind × List Nat) × Bus × Bool :=
  if len < 0 ∨ 508 < len then (none, b, dynAllocated)
  else if len ≤ 16 then
    match busTake b readDataFrame len.toNat with
    | (none, b1) => (none, b1, dynAllocated)
    | (some r, b1) => (some (.static16, r), b1, dynAllocated)
  else if ¬ dynAllocated ∧ ¬ allocOk then (none, b, dynAllocated)
  else
    match busTake b readDataFrame len.toNat with
    | (none, b1) => (none, b1, true)
    | (some r, b1) => (some (.dynamic508, r), b1, true)

/-- `PN5180::mifareAuthenticate`: reject key types other than `0x60`/`0x61`
with `-2` before any bus activity; a transport failure yields `-3`, otherwise
the one-byte authentication status. -/
def mifareAuthenticate (b : Bus) (blockNo : Nat) (key : List Nat) (keyType : Nat) (uid : List Nat) :
    Int × Bus :=
  if keyType ≠ 0x60 ∧ keyType ≠ 0x61 then (-2, b)
  else
    let r := busTake b (mifareAuthenticateFrame blockNo key keyType uid) 1
    match r.1 with
    | none => (-3, r.2)
    | some bytes => ((bytes.getD 0 0xFF : Nat), r.2)

/-! ## The bus transport itself (`PN5180::transceiveCommand`)

For claim C8 the busy-line handshake is modelled explicitly: each of the five
busy-line waits either observes the wanted level in time (`true`) or times out
(`false`), and the run records an event trace of select-line transitions, SPI
transfers and waits. -/

/-- Outcome of each busy-line wait of one `transceiveCommand` call: `true`
means the wanted level arrived before `commandTimeout`. -/
structure BusyOracle where
  w0 : Bool
  w3 : Bool
  w5 : Bool
  r3 : Bool
  r5 : Bool
deriving DecidableEq, Repr

/-- Events of one `transceiveCommand` run: NSS (select) transitions, SPI
transfers, and busy-line waits together with their outcome.  `waitBusy high
ok` waits for the busy line to become `high` and succeeds iff `ok`. -/
inductive TEv where
  | nssLow
  | nssHigh
  | xferOut (bytes : List Nat)
  | xferIn (n : Nat)
  | waitBusy (high : Bool) (ok : Bool)
deriving DecidableEq, Repr

/-- `PN5180::transceiveCommand`: the five-phase busy-line handshake.  Returns
(success, final NSS level where `true` = high/de-asserted, event trace).
`recvNull` models a null `recvBuffer` pointer. -/
def transceiveCommand (o : BusyOracle) (send : List Nat) (recvNull : Bool) (recvLen : Nat) :
    Bool × Bool × List TEv :=
  let t0 : List TEv := [TEv.waitBusy false o.w0]
  if ¬ o.w0 then (false, true, t0 ++ [TEv.nssHigh])
  else
    let t1 := t0 ++ [TEv.nssLow, TEv.xferOut send, TEv.waitBusy true o.w3]
    if ¬ o.w3 then (false, true, t1 ++ [TEv.nssHigh])
    else
      let t2 := t1 ++ [TEv.nssHigh, TEv.waitBusy false o.w5]
      if ¬ o.w5 then (false, true, t2 ++ [TEv.nssHigh])
      else if recvNull ∨ recvLen = 0 then (true, true, t2 ++ [TEv.nssHigh])
      else
        let t3 := t2 ++ [TEv.nssLow, TEv.xferIn recvLen, TEv.waitBusy true o.r3]
        if ¬ o.r3 then (false, true, t3 ++ [TEv.nssHigh])
        else
          let t4 := t3 ++ [TEv.nssHigh, TEv.waitBusy false o.r5]
          if ¬ o.r5 then (false, true, t4 ++ [TEv.nssHigh])
          else (true, true, t4)

/-- `true` on a busy-line wait that timed out. -/
def isFailWait : TEv → Bool
  | .waitBusy _ false => true
  | _ => false

/-- A trace never continues past a timed-out wait: everything after a failed
wait is exactly the de-assertion of the select line. -/
def noRetry : List TEv → Bool
  | [] => true
  | TEv.waitBusy _ false :: rest => if rest = [TEv.nssHigh] then true else false
  | _ :: rest => noRetry rest

/-! ## ISO 14443 Type-A activation (`PN5180ISO14443.cpp`)

`activateTypeA` drives the Type-A activation sequence through the command
layer.  Each fallible primitive call it makes (register writes, state reads,
`sendData`, `readData`) is abstracted into one oracle field, in call order;
calls whose result the code ignores (`setRF_on`, `clearIRQStatus`) have no
field. -/

/-- Device/transport outcomes for the primitive calls of
`PN5180ISO14443::activateTypeA`, in the order the code makes them.  `Option`
fields are reads: `none` means the `readData` call failed, `some bytes` the
bytes the transport delivered. -/
structure TypeAOracle where
  loadRF : Bool := true
  offCrypto : Bool := true
  clearRxCrc : Bool := true
  clearTxCrc : Bool := true
  setIdle : Bool := true
  setTransceive : Bool := true
  ts0 : TransceiveStat := .waitTransmit
  sendReqa : Bool := true
  atqa : Option (List Nat) := some [0x44, 0x00]
  tsWaitOk : Bool := true
  sendAc1 : Bool := true
  rxBytes : Nat := 5
  ac1 : Option (List Nat) := none
  enRxCrc1 : Bool := true
  enTxCrc1 : Bool := true
  sendSel1 : Bool := true
  sak1 : Option (List Nat) := none
  clearRxCrc2 : Bool := true
  clearTxCrc2 : Bool := true
  sendAc2 : Bool := true
  ac2 : Option (List Nat) := none
  enRxCrc2 : Bool := true
  enTxCrc2 : Bool := true
  sendSel2 : Bool := true
  sak2 : Option (List Nat) := none
deriving Repr

/-- `PN5180ISO14443::activateTypeA`: returns the `int8_t` result (UID length,
`0` = no tag, `-1`/`-2` = errors) and the caller's 10-byte buffer after the
call.  Mirrors the source statement by statement; the local `cmd` array is
threaded explicitly. -/
def activateTypeA (o : TypeAOracle) (buffer : List Nat) : Int × List Nat :=
  if ¬ o.loadRF then (-1, buffer)
  else if ¬ o.offCrypto then (-1, buffer)
  else if ¬ o.clearRxCrc then (-1, buffer)
  else if ¬ o.clearTxCrc then (-1, buffer)
  else if ¬ o.setIdle then (-1, buffer)
  else if ¬ o.setTransceive then (-1, buffer)
  else if o.ts0 ≠ .waitTransmit then (-1, buffer)
  else if ¬ o.sendReqa then (0, buffer)
  else
    match o.atqa with
    | none => (0, buffer)
    | some a =>
      -- READ 2 bytes ATQA into buffer
      let buffer := wrAt buffer 0 (rdPad a 2)
      if ¬ o.tsWaitOk then (-1, buffer)
      else if ¬ o.sendAc1 then (-2, buffer)
      else if o.rxBytes ≠ 5 then (-2, buffer)
      else
        match o.ac1 with
        | none => (-2, buffer)
        | some l1 =>
          -- read 5 bytes sak into cmd+2; save the first 4 bytes of UID
          let buffer := wrAt buffer 0 ((rdPad l1 5).take 4)
          if ¬ o.enRxCrc1 then (-2, buffer)
          else if ¬ o.enTxCrc1 then (-2, buffer)
          else if ¬ o.sendSel1 then (4, buffer)
          else
            match o.sak1 with
            | none => (-2, buffer)
            | some sk =>
              let buffer := buffer.set 2 (sk.getD 0 0xFF)
              if (sk.getD 0 0xFF) &&& 0x04 = 0 then
                -- 4-byte UID: first 4 anticollision bytes, stored at offset 3
                (4, wrAt buffer 3 ((rdPad l1 5).take 4))
              else if (rdPad l1 5).getD 0 0xFF ≠ 0x88 then (0, buffer)
              else
                -- 3 bytes after the cascade tag, stored at offset 3
                let buffer := wrAt buffer 3 ((rdPad l1 4).drop 1)
                if ¬ o.clearRxCrc2 then (-2, buffer)
                else if ¬ o.clearTxCrc2 then (-2, buffer)
                else if ¬ o.sendAc2 then (-2, buffer)
                else
                  match o.ac2 with
                  | none => (-2, buffer)
                  | some l2 =>
                    -- anticollision-2 bytes, stored at offset 6
                    let buffer := wrAt buffer 6 ((rdPad l2 5).take 4)
                    if ¬ o.enRxCrc2 then (-2, buffer)
                    else if ¬ o.enTxCrc2 then (-2, buffer)
                    else if ¬ o.sendSel2 then (-2, buffer)
                    else
                      match o.sak2 with
                      | none => (-2, buffer)
                      | some sk2 => (7, buffer.set 2 (sk2.getD 0 0xFF))

/-- `readCardSerial` validity filtering, step 1: the UID length after the
ATQA-slot check (`response[0] == 0xFF && response[1] == 0xFF` zeroes it). -/
def rcsLen1 (uidLength : Int) (resp : List Nat) : Int :=
  if resp.getD 0 0 = 0xFF ∧ resp.getD 1 0 = 0xFF then 0 else uidLength

/-- `readCardSerial` validity filtering, step 2: the UID length after the
first-UID-byte check (`response[3]` must not be `0x00` or `0xFF`). -/
def rcsLen2 (uidLength : Int) (resp : List Nat) : Int :=
  if resp.getD 3 0 = 0x00 ∨ resp.getD 3 0 = 0xFF then 0 else rcsLen1 uidLength resp

/-- `readCardSerial` validity filtering, step 3: the `validUID` flag — some
UID byte after the first differs from `0x00`/`0xFF`, and the cascade-tag and
all-zero/all-0xFF checks for 4- and 7-byte UIDs have not cleared it. -/
def rcsValid (len2 : Int) (resp : List Nat) : Bool :=
  let valid0 := ((List.range len2.toNat).drop 1).any fun i =>
    decide (¬ (resp.getD (i + 3) 0 = 0x00) ∧ ¬ (resp.getD (i + 3) 0 = 0xFF))
  let valid1 := if len2 = 4 ∧ resp.getD 3 0 = 0x88 then false else valid0
  let valid2 := if len2 = 7 ∧ resp.getD 6 0 = 0x88 then false else valid1
  let valid3 := if len2 = 7 ∧ resp.getD 6 0 = 0x00 ∧ resp.getD 7 0 = 0x00 ∧
                   resp.getD 8 0 = 0x00 ∧ resp.getD 9 0 = 0x00 then false else valid2
  if len2 = 7 ∧ resp.getD 6 0 = 0xFF ∧ resp.getD 7 0 = 0xFF ∧
     resp.getD 8 0 = 0xFF ∧ resp.getD 9 0 = 0xFF then false else valid3

/-- The validity filtering of `PN5180ISO14443::readCardSerial` applied to an
activation result: the `int8_t` UID length and the 10-byte response buffer.
Returns the function result and the bytes copied into the caller's buffer. -/
def readCardSerialPost (uidLength : Int) (resp : List Nat) : Int × List Nat :=
  if uidLength ≤ 0 then (uidLength, [])
  else if uidLength < 4 then (0, [])
  else if rcsValid (rcsLen2 uidLength resp) resp then
    (rcsLen2 uidLength resp,
     (List.range (rcsLen2 uidLength resp).toNat).map fun i => resp.getD (i + 3) 0)
  else (0, [])

/-- `PN5180ISO14443::readCardSerial`: activate Type A on a zero-initialised
10-byte response buffer, then filter. -/
def readCardSerial (o : TypeAOracle) : Int × List Nat :=
  let r := activateTypeA o (List.replicate 10 0)
  readCardSerialPost r.1 r.2

/-! ## ISO 15693 vicinity protocol (`PN5180ISO15693.cpp`) -/

/-- `ISO15693ErrorCode` (declared in `PN5180ISO15693.h`; the full set of
variants is spelled out by `PN5180ISO15693::strerror` in the source). -/
inductive ISO15693ErrorCode where
  | noCard
  | ok
  | notSupported
  | notRecognized
  | optionNotSupported
  | unknownErr
  | blockNotAvailable
  | blockAlreadyLocked
  | blockIsLocked
  | blockNotProgrammed
  | blockNotLocked
  | customCmdError
deriving DecidableEq, Repr

/-- `PN5180ISO15693::readMultipleBlock`: validate the block range (both
guards are evaluated in C `int` arithmetic after integer promotion of the
`uint8_t` arguments), then build and dispatch the read-multiple-blocks
request.  `rc` abstracts the outcome of `issueISO15693Command`; the second
component lists the request frames that reached the bus. -/
def readMultipleBlock (rc : ISO15693ErrorCode) (uid : List Nat) (blockNo numBlock : Nat) :
    ISO15693ErrorCode × List (List Nat) :=
  if (blockNo : Int) > (numBlock : Int) - 1 then (.blockNotAvailable, [])
  else if (blockNo : Int) + (numBlock : Int) > (numBlock : Int) then (.blockNotAvailable, [])
  else
    let frame := 0x22 :: 0x23 :: ((List.range 8).map fun i => uid.getD i 0)
                 ++ [blockNo, (numBlock + 255) % 256]
    (rc, [frame])

/-- `PN5180ISO15693::getInventory`: zero the caller's 8-byte UID buffer, then
issue the single-slot inventory command; `rc` and `respBuf` abstract the
outcome of `issueISO15693Command`.  On success the UID is bytes 2..9 of the
device response. -/
def getInventory (uid0 : List Nat) (rc : ISO15693ErrorCode) (respBuf : List Nat) :
    ISO15693ErrorCode × List Nat :=
  let uid1 := wrAt uid0 0 (List.replicate 8 0)
  if rc ≠ .ok then (rc, uid1)
  else (.ok, wrAt uid1 0 ((List.range 8).map fun i => respBuf.getD (2 + i) 0xFF))

/-! ### Multi-tag inventory (`getInventoryMultiple` / `inventoryPoll`)

The 16-slot anti-collision poll is embedded with one oracle per poll round
(`Round`), holding one oracle per time slot (`Slot`) plus the outcomes of the
fallible register/send operations around them.  The state carries the
caller's data (`numCard`, the flat UID buffer, `numCol`, the collision
array) and a trace of observable events: request frames sent, collision
records stored, UIDs recorded. -/

/-- The do-while loop computing the mask length in nibbles from the lowest
outstanding collision record (`mask >>= 4; maskLen++` while `mask > 0`).
The fuel 8 covers the 32-bit `mask` of the source. -/
def nibblesGo : Nat → Nat → Nat
  | 0, _ => 1
  | fuel + 1, m => if m / 16 = 0 then 1 else 1 + nibblesGo fuel (m / 16)

/-- Number of nibbles of a collision record, as computed by the do-while
loop in `inventoryPoll` (one iteration happens even for 0). -/
def nibbles (m : Nat) : Nat := nibblesGo 8 m

/-- Mask length in nibbles: 0 when no collision record is outstanding. -/
def invMaskLen (numCol c0 : Nat) : Nat := if 0 < numCol then nibbles c0 else 0

/-- The 7-byte `inventory` array built by `inventoryPoll`: flags (high data
rate + inventory = 0x06), command code 0x01, mask length in bits, then the
four bytes starting at `(uint8_t*)&collision[0]` (two little-endian 16-bit
records). -/
def invFrame (maskLen c0 c1 : Nat) : List Nat :=
  [0x06, 0x01, maskLen * 4 % 256, c0 % 256, c0 / 256 % 256, c1 % 256, c1 / 256 % 256]

/-- `cmdLen = 3 + (maskLen/2) + (maskLen%2)`. -/
def invCmdLen (maskLen : Nat) : Nat := 3 + maskLen / 2 + maskLen % 2

/-- The inventory request actually handed to `sendData`: the first `cmdLen`
bytes of the 7-byte array. -/
def invRequest (numCol c0 c1 : Nat) : List Nat :=
  (invFrame (invMaskLen numCol c0) c0 c1).take (invCmdLen (invMaskLen numCol c0))

/-- Observable events of the multi-tag inventory. -/
inductive PollEv where
  | sent (frame : List Nat)
  | col (record : Nat)
  | card (uid : List Nat)
deriving DecidableEq, Repr

/-- `true` on a recorded-UID event. -/
def isCard : PollEv → Bool
  | .card _ => true
  | _ => false

/-- The caller-visible state of `getInventoryMultiple`: recorded card count,
flat UID buffer (8 bytes per card), outstanding collision count, collision
record array (length `maxTags`), plus the event trace. -/
structure GimState where
  numCard : Nat
  uidBuf : List Nat
  numCol : Nat
  collision : List Nat
  trace : List PollEv
deriving DecidableEq, Repr

/-- Device behaviour of one time slot: the IRQ status `getIRQStatus`
returns, the `RX_STATUS` read (`rxOk` = the register read succeeded,
`rx` its value), and the `readData(len+1)` outcome for a responding card.
`txCfgOk`, `clrOk`, `eofOk` are the three fallible operations performed
before advancing to the next slot. -/
structure Slot where
  irq : Nat := 0
  rxOk : Bool := true
  rx : Nat := 0
  readOk : Bool := true
  readBuf : List Nat := []
  txCfgOk : Bool := true
  clrOk : Bool := true
  eofOk : Bool := true
deriving DecidableEq, Repr

/-- Device behaviour of one full `inventoryPoll` round. -/
structure Round where
  clrOk : Bool := true
  sendOk : Bool := true
  slots : List Slot := []
  rfOffOk : Bool := true
  setupOk : Bool := true
deriving Repr

/-- One iteration of the 16-slot loop of `inventoryPoll` (steps 7-10): check
the collision bit (`rxStatus >> 18`), else check for an empty slot, else read
and record the responding card's UID.  `none` aborts the poll with
`ISO15693_EC_UNKNOWN_ERROR`. -/
def pollSlot (maskLen maxTags slot : Nat) (sl : Slot) (st : GimState) : Option GimState :=
  if ¬ sl.rxOk then none
  else
    let len := sl.rx % 512
    if (sl.rx >>> 18) &&& 1 = 1 ∧ st.numCol < maxTags then
      let record := if 0 < maskLen
        then (st.collision.getD 0 0 ||| (slot <<< (maskLen * 4))) % 65536
        else (slot <<< (maskLen * 4)) % 65536
      some { st with collision := st.collision.set st.numCol record,
                     numCol := st.numCol + 1,
                     trace := st.trace ++ [.col record] }
    else if sl.irq &&& RX_IRQ_STAT = 0 ∧ len = 0 then some st
    else if ¬ sl.readOk then none
    else
      let rec8 := (List.range 8).map fun i => sl.readBuf.getD (2 + i) 0xFF
      some { st with uidBuf := wrAt st.uidBuf (st.numCard * 8) rec8,
                     numCard := st.numCard + 1,
                     trace := st.trace ++ [.card rec8] }

/-- The 16-slot loop: process each slot, and between slots (slots 0-14)
perform the EOF-only re-issue (TX_CONFIG AND-mask write, IRQ clear, send). -/
def pollSlots (maskLen maxTags : Nat) : Nat → List Slot → GimState → Option GimState
  | _, [], st => some st
  | slot, sl :: rest, st =>
    match pollSlot maskLen maxTags slot sl st with
    | none => none
    | some st1 =>
      if slot + 1 < 16 then
        if ¬ sl.txCfgOk then none
        else if ¬ sl.clrOk then none
        else if ¬ sl.eofOk then none
        else pollSlots maskLen maxTags (slot + 1) rest st1
      else pollSlots maskLen maxTags (slot + 1) rest st1

/-- Pad a round's slot list to the 16 iterations of the source loop. -/
def fill16 (l : List Slot) : List Slot :=
  (List.range 16).map fun i => l.getD i {}

/-- `PN5180ISO15693::inventoryPoll`: compute the mask from the lowest
outstanding collision record, clear the IRQ flags, send the inventory
request, walk the 16 time slots, then switch the RF field off and set it up
again. -/
def inventoryPoll (r : Round) (maxTags : Nat) (st : GimState) : ISO15693ErrorCode × GimState :=
  let req := invRequest st.numCol (st.collision.getD 0 0) (st.collision.getD 1 0)
  let maskLen := invMaskLen st.numCol (st.collision.getD 0 0)
  if ¬ r.clrOk then (.unknownErr, st)
  else if ¬ r.sendOk then (.unknownErr, st)
  else
    let st0 := { st with trace := st.trace ++ [.sent req] }
    match pollSlots maskLen maxTags 0 (fill16 r.slots) st0 with
    | none => (.unknownErr, st0)
    | some st1 =>
      if ¬ r.rfOffOk then (.unknownErr, st1)
      else if ¬ r.setupOk then (.unknownErr, st1)
      else (.ok, st1)

/-- `numCol--` followed by the left shift of the collision array
(`collision[i] = collision[i+1]` for `i < numCol`). -/
def shiftCol (st : GimState) : GimState :=
  let n := st.numCol - 1
  { st with numCol := n,
            collision := (List.range st.collision.length).map fun i =>
              if i < n then st.collision.getD (i + 1) 0 else st.collision.getD i 0 }

/-- The `while (numCol)` loop of `getInventoryMultiple`, with the remaining
poll-round oracles as fuel; `none` means the device behaviour list was
exhausted while collisions were still outstanding (the source loop has no
round bound). -/
def gimLoop (maxTags : Nat) : List Round → GimState → Option (ISO15693ErrorCode × GimState)
  | [], st => if st.numCol = 0 then some (.ok, st) else none
  | r :: rest, st =>
    if st.numCol = 0 then some (.ok, st)
    else
      let p := inventoryPoll r maxTags st
      if p.1 = .ok then gimLoop maxTags rest (shiftCol p.2)
      else some (.unknownErr, p.2)

/-- `PN5180ISO15693::getInventoryMultiple`: zero the card count, run a first
poll, then keep polling (decrementing and shifting the collision list after
each round) until no collision is outstanding.  `uid0` is the caller's UID
buffer, `rounds` the behaviour of the device across rounds. -/
def getInventoryMultiple (rounds : List Round) (maxTags : Nat) (uid0 : List Nat) :
    Option (ISO15693ErrorCode × GimState) :=
  match rounds with
  | [] => none
  | r :: rest =>
    let st0 : GimState :=
      { numCard := 0, uidBuf := uid0, numCol := 0,
        collision := List.replicate maxTags 0, trace := [] }
    let p := inventoryPoll r maxTags st0
    if p.1 = .ok then gimLoop maxTags rest p.2
    else some (.unknownErr, p.2)

/-! ## Helper lemmas -/

theorem wrAt_cons (b : Nat) (buf : List Nat) (off : Nat) (bytes : List Nat) :
    wrAt (b :: buf) (off + 1) bytes = b :: wrAt buf off bytes := by
  induction bytes generalizing b buf off with
  | nil => rfl
  | cons x xs ih =>
    show wrAt ((b :: buf).set (off + 1) x) (off + 2) xs = b :: wrAt (buf.set off x) (off + 1) xs
    rw [List.set_cons_succ, ih]

theorem wrAt_zero (bytes buf : List Nat) (h : bytes.length ≤ buf.length) :
    wrAt buf 0 bytes = bytes ++ buf.drop bytes.length := by
  induction bytes generalizing buf with
  | nil => simp [wrAt]
  | cons x xs ih =>
    cases buf with
    | nil => simp at h
    | cons y ys =>
      show wrAt ((y :: ys).set 0 x) 1 xs = (x :: xs) ++ (y :: ys).drop (x :: xs).length
      rw [List.set_cons_zero, show (1 : Nat) = 0 + 1 from rfl, wrAt_cons, ih ys (by simpa using h)]
      simp

/-! ## Claims -/

/-- Claim C1 (code_bug evaluation): at `blockNo = 1`, `numBlock = 3` the
guard `(blockNo + numBlock) > numBlock` of `readMultipleBlock` fires — it
degenerates to `blockNo > 0` under C integer promotion — so the call returns
the block-not-available error with no bus activity even though
`blockNo < numBlock`, contradicting the claim (and the guard's own comment,
which describes a read-range check against the tag's block count). -/
theorem C1_readMultipleBlock_rejects_inner_block :
    (∀ rc uid, readMultipleBlock rc uid 1 3 = (.blockNotAvailable, [])) ∧ (1 : Nat) < 3 := by
  refine ⟨fun rc uid => ?_, by decide⟩
  norm_num [readMultipleBlock]

/-- Claim C6: `readEEprom` fails without any bus transaction whenever
`addr > 254` or `addr + len > 254` (evaluated in C `int` arithmetic), and
otherwise issues the read-EEPROM command frame over the transport. -/
theorem C6_readEEprom (b : Bus) (addr : Nat) (len : Int) :
    ((254 < addr ∨ 254 < (addr : Int) + len) → readEEprom b addr len = (false, b)) ∧
    (addr ≤ 254 → (addr : Int) + len ≤ 254 →
      (readEEprom b addr len).2.log = b.log ++ [readEEpromFrame addr len]) := by
  constructor
  · intro h
    simp [readEEprom, h]
  · intro h1 h2
    have hc : ¬ (254 < addr ∨ 254 < (addr : Int) + len) := by
      push_neg
      exact ⟨h1, h2⟩
    rcases b with ⟨pend, log⟩
    cases pend with
    | nil => simp [readEEprom, hc, busTake]
    | cons r rest => simp [readEEprom, hc, busTake]

/-- Claim C6, witness: `addr = 255` (and `addr = 10, len = 300`) are
rejected with the bus untouched; `addr = 10, len = 4` issues the frame. -/
theorem C6_readEEprom_witness :
    readEEprom ⟨[some [1]], []⟩ 255 1 = (false, ⟨[some [1]], []⟩) ∧
    readEEprom ⟨[some [1]], []⟩ 10 300 = (false, ⟨[some [1]], []⟩) ∧
    (readEEprom ⟨[some [1]], []⟩ 10 4).2.log = [readEEpromFrame 10 4] :=
  ⟨(C6_readEEprom ⟨[some [1]], []⟩ 255 1).1 (Or.inl (by decide)),
   (C6_readEEprom ⟨[some [1]], []⟩ 10 300).1 (Or.inr (by decide)),
   (C6_readEEprom ⟨[some [1]], []⟩ 10 4).2 (by decide) (by decide)⟩

/-- Claim C9: `mifareAuthenticate` returns `-2` with no bus activity for any
key type other than `0x60`/`0x61`, and transmits the authenticate command
frame exactly for those two key types. -/
theorem C9_mifareAuthenticate (b : Bus) (blockNo : Nat) (key : List Nat) (keyType : Nat)
    (uid : List Nat) :
    (keyType ≠ 0x60 ∧ keyType ≠ 0x61 →
      mifareAuthenticate b blockNo key keyType uid = (-2, b)) ∧
    (keyType = 0x60 ∨ keyType = 0x61 →
      (mifareAuthenticate b blockNo key keyType uid).2.log
        = b.log ++ [mifareAuthenticateFrame blockNo key keyType uid]) := by
  constructor
  · intro h
    simp [mifareAuthenticate, h]
  · intro h
    have hc : ¬ (keyType ≠ 0x60 ∧ keyType ≠ 0x61) := by
      rcases h with h | h <;> simp [h]
    rcases b with ⟨pend, log⟩
    cases pend with
    | nil => simp [mifareAuthenticate, hc, busTake]
    | cons r rest => cases r <;> simp [mifareAuthenticate, hc, busTake]

/-- Claim C9, witness: key type `0x6A` is rejected with the bus untouched,
key type `0x60` transmits the frame. -/
theorem C9_mifareAuthenticate_witness :
    mifareAuthenticate ⟨[some [0]], []⟩ 4 [1, 2, 3, 4, 5, 6] 0x6A [9, 9, 9, 9]
      = (-2, ⟨[some [0]], []⟩) ∧
    (mifareAuthenticate ⟨[some [0]], []⟩ 4 [1, 2, 3, 4, 5, 6] 0x60 [9, 9, 9, 9]).2.log
      = [mifareAuthenticateFrame 4 [1, 2, 3, 4, 5, 6] 0x60 [9, 9, 9, 9]] :=
  ⟨(C9_mifareAuthenticate ⟨[some [0]], []⟩ 4 [1, 2, 3, 4, 5, 6] 0x6A [9, 9, 9, 9]).1
      (by decide),
   (C9_mifareAuthenticate ⟨[some [0]], []⟩ 4 [1, 2, 3, 4, 5, 6] 0x60 [9, 9, 9, 9]).2
      (Or.inl rfl)⟩

/-- Claim C10: `getInventory` zeroes the caller's 8-byte UID buffer before
issuing the inventory command, so every error return leaves the buffer all
zeros; a success return leaves it holding exactly bytes 2..9 of the device
response. -/
theorem C10_getInventory (uid0 : List Nat) (rc : ISO15693ErrorCode) (respBuf : List Nat)
    (h8 : uid0.length = 8) :
    (rc ≠ .ok → getInventory uid0 rc respBuf = (rc, List.replicate 8 0)) ∧
    (rc = .ok → getInventory uid0 rc respBuf
        = (.ok, (List.range 8).map fun i => respBuf.getD (2 + i) 0xFF)) := by
  have hdrop : uid0.drop 8 = [] := List.drop_eq_nil_of_le (by rw [h8])
  have h1 : wrAt uid0 0 (List.replicate 8 0) = List.replicate 8 0 := by
    rw [wrAt_zero _ _ (by rw [List.length_replicate, h8]), List.length_replicate, hdrop,
      List.append_nil]
  have hlen : ((List.range 8).map fun i => respBuf.getD (2 + i) 0xFF).length = 8 := by
    rw [List.length_map, List.length_range]
  have h2 : wrAt (List.replicate 8 0) 0 ((List.range 8).map fun i => respBuf.getD (2 + i) 0xFF)
      = (List.range 8).map fun i => respBuf.getD (2 + i) 0xFF := by
    rw [wrAt_zero _ _ (by rw [hlen, List.length_replicate]), hlen]
    rw [List.drop_eq_nil_of_le (by rw [List.length_replicate]), List.append_nil]
  refine ⟨fun hrc => ?_, fun hrc => ?_⟩
  · show (if rc ≠ .ok then _ else _) = _
    rw [if_pos hrc, h1]
  · show (if rc ≠ .ok then _ else _) = _
    rw [if_neg (by simp [hrc]), h1, h2]

/-- Claim C10, witness: with an arbitrary dirty caller buffer, a no-card
error yields all zeros and a success yields response bytes 2..9. -/
theorem C10_getInventory_witness :
    getInventory [9, 9, 9, 9, 9, 9, 9, 9] .noCard [1, 2, 3, 4, 5, 6, 7, 8, 9, 10]
      = (.noCard, List.replicate 8 0) ∧
    getInventory [9, 9, 9, 9, 9, 9, 9, 9] .ok [1, 2, 3, 4, 5, 6, 7, 8, 9, 10]
      = (.ok, [3, 4, 5, 6, 7, 8, 9, 10]) := by
  have h1 := (C10_getInventory [9, 9, 9, 9, 9, 9, 9, 9] .noCard
      [1, 2, 3, 4, 5, 6, 7, 8, 9, 10] (by decide)).1 (by decide)
  have h2 := (C10_getInventory [9, 9, 9, 9, 9, 9, 9, 9] .ok
      [1, 2, 3, 4, 5, 6, 7, 8, 9, 10] (by decide)).2 rfl
  exact ⟨h1, by rw [h2]; decide⟩

/-- Claim C7: `readData` fails with no bus activity for `len < 0` or
`len > 508`; reads of at most 16 bytes use the static scratch buffer and
never touch the allocation state; larger reads use the 508-byte buffer,
which is allocated lazily (once `readBufferDynamic508` is set, the malloc
outcome is irrelevant); and a successful read returns exactly the bytes the
transport delivered, padded with the `0xFF` sentinel. -/
theorem C7_readData (b : Bus) (len : Int) (dyn alloc : Bool) :
    ((len < 0 ∨ 508 < len) → readData b len dyn alloc = (none, b, dyn)) ∧
    (0 ≤ len → len ≤ 16 → (readData b len dyn alloc).2.2 = dyn ∧
      ((readData b len dyn alloc).1.map Prod.fst = none ∨
       (readData b len dyn alloc).1.map Prod.fst = some .static16)) ∧
    (16 < len → len ≤ 508 →
      ((readData b len dyn alloc).1.map Prod.fst = none ∨
       ((readData b len dyn alloc).1.map Prod.fst = some .dynamic508 ∧
        (readData b len dyn alloc).2.2 = true)) ∧
      readData b len true alloc = readData b len true true) ∧
    (∀ resp rest, b.pend = some resp :: rest →
      (readData b len dyn alloc).1 = none ∨
      (readData b len dyn alloc).1 = some (.static16, rdPad resp len.toNat) ∨
      (readData b len dyn alloc).1 = some (.dynamic508, rdPad resp len.toNat)) := by
  refine ⟨fun h => by simp [readData, h], ?_, ?_, ?_⟩
  · intro h0 h16
    have hc : ¬ (len < 0 ∨ 508 < len) := by omega
    rcases b with ⟨pend, log⟩
    cases pend with
    | nil => simp [readData, hc, h16, busTake]
    | cons r rest => cases r <;> simp [readData, hc, h16, busTake]
  · intro h16 h508
    have hc : ¬ (len < 0 ∨ 508 < len) := by omega
    have hc2 : ¬ len ≤ 16 := by omega
    rcases b with ⟨pend, log⟩
    cases pend with
    | nil => cases dyn <;> cases alloc <;> simp [readData, hc, hc2, busTake]
    | cons r rest => cases r <;> cases dyn <;> cases alloc <;>
        simp [readData, hc, hc2, busTake]
  · intro resp rest hp
    rcases b with ⟨pend, log⟩
    simp only at hp
    subst hp
    by_cases hneg : len < 0 ∨ 508 < len
    · simp [readData, hneg]
    · by_cases h16 : len ≤ 16
      · simp [readData, hneg, h16, busTake]
      · cases dyn <;> cases alloc <;> simp [readData, hneg, h16, busTake]

/-- Claim C7, witness: `len = 600` is rejected with the bus untouched; a
3-byte read uses the scratch buffer and returns the transport's bytes; a
100-byte read uses the dynamic buffer and flips the allocation state. -/
theorem C7_readData_witness :
    readData ⟨[some [1, 2, 3]], []⟩ 600 false false = (none, ⟨[some [1, 2, 3]], []⟩, false) ∧
    ((readData ⟨[some [1, 2, 3]], []⟩ 3 false false).2.2 = false ∧
      ((readData ⟨[some [1, 2, 3]], []⟩ 3 false false).1.map Prod.fst = none ∨
       (readData ⟨[some [1, 2, 3]], []⟩ 3 false false).1.map Prod.fst = some .static16)) ∧
    ((readData ⟨[some [1, 2, 3]], []⟩ 100 false true).1.map Prod.fst = none ∨
     ((readData ⟨[some [1, 2, 3]], []⟩ 100 false true).1.map Prod.fst = some .dynamic508 ∧
      (readData ⟨[some [1, 2, 3]], []⟩ 100 false true).2.2 = true)) ∧
    ((readData ⟨[some [1, 2, 3]], []⟩ 3 false false).1 = none ∨
     (readData ⟨[some [1, 2, 3]], []⟩ 3 false false).1
        = some (.static16, rdPad [1, 2, 3] (3 : Int).toNat) ∨
     (readData ⟨[some [1, 2, 3]], []⟩ 3 false false).1
        = some (.dynamic508, rdPad [1, 2, 3] (3 : Int).toNat)) :=
  ⟨(C7_readData ⟨[some [1, 2, 3]], []⟩ 600 false false).1 (Or.inr (by decide)),
   (C7_readData ⟨[some [1, 2, 3]], []⟩ 3 false false).2.1 (by decide) (by decide),
   ((C7_readData ⟨[some [1, 2, 3]], []⟩ 100 false true).2.2.1 (by decide) (by decide)).1,
   (C7_readData ⟨[some [1, 2, 3]], []⟩ 3 false false).2.2.2 [1, 2, 3] [] rfl⟩

/-- Claim C5: with the payload within bounds and the two register writes
accepted by the transport, `sendData` first issues the Idle/StopCom AND-mask
write on `SYSTEM_CONFIG`, then the Transceive OR-mask write, then reads
`RF_STATUS`; if the decoded transceive state is not `WaitTransmit` it returns
`false` with no `SEND_DATA` frame ever issued, and only when the state is
`WaitTransmit` does the buffered-send frame follow. -/
theorem C5_sendData (pendTS : Option (List Nat)) (rest : List (Option (List Nat)))
    (log0 : List (List Nat)) (data : List Nat) (len validBits : Nat) (hlen : len ≤ 260) :
    ((match pendTS with
      | none => TransceiveStat.idle
      | some v => decodeTS ((word32 (rdPad v 4) >>> 24) &&& 7)) ≠ .waitTransmit →
      sendData ⟨some [] :: some [] :: pendTS :: rest, log0⟩ data len validBits =
        (false, ⟨rest, log0 ++ [writeRegisterAndMaskFrame SYSTEM_CONFIG 0xfffffff8,
                                writeRegisterOrMaskFrame SYSTEM_CONFIG 3,
                                readRegisterFrame RF_STATUS]⟩)) ∧
    ((match pendTS with
      | none => TransceiveStat.idle
      | some v => decodeTS ((word32 (rdPad v 4) >>> 24) &&& 7)) = .waitTransmit →
      (sendData ⟨some [] :: some [] :: pendTS :: rest, log0⟩ data len validBits).2.log =
        log0 ++ [writeRegisterAndMaskFrame SYSTEM_CONFIG 0xfffffff8,
                 writeRegisterOrMaskFrame SYSTEM_CONFIG 3,
                 readRegisterFrame RF_STATUS,
                 sendDataFrame validBits data len]) := by
  have hnl : ¬ 260 < len := Nat.not_lt.mpr hlen
  cases pendTS with
  | none =>
    constructor
    · intro _
      simp [sendData, hnl, writeRegisterWithAndMask, writeRegisterWithOrMask,
        getTransceiveState, readRegister, cmd_SendData, busTake]
    · intro h
      simp at h
  | some v =>
    by_cases hts : decodeTS ((word32 (rdPad v 4) >>> 24) &&& 7) = .waitTransmit
    · refine ⟨fun h => absurd hts h, fun _ => ?_⟩
      cases rest with
      | nil =>
        simp [sendData, hnl, writeRegisterWithAndMask, writeRegisterWithOrMask,
          getTransceiveState, readRegister, cmd_SendData, busTake, hts]
      | cons r rest2 =>
        simp [sendData, hnl, writeRegisterWithAndMask, writeRegisterWithOrMask,
          getTransceiveState, readRegister, cmd_SendData, busTake, hts]
    · refine ⟨fun _ => ?_, fun h => absurd h hts⟩
      simp [sendData, hnl, writeRegisterWithAndMask, writeRegisterWithOrMask,
        getTransceiveState, readRegister, cmd_SendData, busTake, hts]

/-- Claim C5, witness: an `RF_STATUS` read of `0x01000000` decodes to
`WaitTransmit` and the `SEND_DATA` frame follows the three configuration
frames; a read of `0` decodes to idle and blocks the send. -/
theorem C5_sendData_witness :
    (sendData ⟨[some [], some [], some [0, 0, 0, 1], some []], []⟩ [0xAA] 1 0).2.log =
      [writeRegisterAndMaskFrame SYSTEM_CONFIG 0xfffffff8,
       writeRegisterOrMaskFrame SYSTEM_CONFIG 3,
       readRegisterFrame RF_STATUS,
       sendDataFrame 0 [0xAA] 1] ∧
    sendData ⟨[some [], some [], some [0, 0, 0, 0], some []], []⟩ [0xAA] 1 0 =
      (false, ⟨[some []], [writeRegisterAndMaskFrame SYSTEM_CONFIG 0xfffffff8,
                           writeRegisterOrMaskFrame SYSTEM_CONFIG 3,
                           readRegisterFrame RF_STATUS]⟩) :=
  ⟨(C5_sendData (some [0, 0, 0, 1]) [some []] [] [0xAA] 1 0 (by decide)).2 (by decide),
   (C5_sendData (some [0, 0, 0, 0]) [some []] [] [0xAA] 1 0 (by decide)).1 (by decide)⟩

/-- Claim C8: in `transceiveCommand` every timed-out busy-line wait aborts
the exchange — the function returns `false`, the select line is left
de-asserted (high), and the trace never continues past the failed wait (no
retry); the exchange fails exactly when some wait timed out; and when no
response is requested, an all-successful run stops after the three
send-phase waits with success (no receive transfer at all). -/
theorem C8_transceiveCommand (o : BusyOracle) (send : List Nat) (recvNull : Bool)
    (recvLen : Nat) :
    ((transceiveCommand o send recvNull recvLen).1 = false →
      (transceiveCommand o send recvNull recvLen).2.1 = true) ∧
    noRetry (transceiveCommand o send recvNull recvLen).2.2 = true ∧
    ((transceiveCommand o send recvNull recvLen).2.2.any isFailWait
      = !(transceiveCommand o send recvNull recvLen).1) ∧
    ((recvNull = true ∨ recvLen = 0) → o.w0 = true → o.w3 = true → o.w5 = true →
      transceiveCommand o send recvNull recvLen =
        (true, true, [TEv.waitBusy false true, TEv.nssLow, TEv.xferOut send,
                      TEv.waitBusy true true, TEv.nssHigh, TEv.waitBusy false true,
                      TEv.nssHigh])) := by
  rcases o with ⟨w0, w3, w5, r3, r5⟩
  by_cases hr : recvNull = true ∨ recvLen = 0 <;>
    cases w0 <;> cases w3 <;> cases w5 <;> cases r3 <;> cases r5 <;>
      simp [transceiveCommand, noRetry, isFailWait, hr]

/-- Claim C8, witness: a timeout at the post-transfer wait leaves NSS high
with the trace ending at the failed wait, and a write-only exchange with all
waits succeeding stops after the three send-phase waits. -/
theorem C8_transceiveCommand_witness :
    (transceiveCommand ⟨true, false, true, true, true⟩ [0xAB] false 4).2.1 = true ∧
    noRetry (transceiveCommand ⟨true, false, true, true, true⟩ [0xAB] false 4).2.2 = true ∧
    transceiveCommand ⟨true, true, true, false, false⟩ [0xAB] false 0 =
      (true, true, [TEv.waitBusy false true, TEv.nssLow, TEv.xferOut [0xAB],
                    TEv.waitBusy true true, TEv.nssHigh, TEv.waitBusy false true,
                    TEv.nssHigh]) :=
  ⟨(C8_transceiveCommand ⟨true, false, true, true, true⟩ [0xAB] false 4).1 (by decide),
   (C8_transceiveCommand ⟨true, false, true, true, true⟩ [0xAB] false 4).2.1,
   (C8_transceiveCommand ⟨true, true, true, false, false⟩ [0xAB] false 0).2.2.2
      (Or.inr rfl) rfl rfl rfl⟩

theorem replicate10_zero : List.replicate 10 (0 : Nat) = [0, 0, 0, 0, 0, 0, 0, 0, 0, 0] := rfl

theorem range4_eq : List.range 4 = [0, 1, 2, 3] := by decide

/-- Claim C2: on the happy path through `activateTypeA` (all primitive calls
succeed, 5 anticollision bytes received), the SAK bit `0x04` decides the
UID: clear means the returned UID (buffer bytes 3..6) is the first 4
anticollision-1 bytes and the result is 4; set requires the first
anticollision-1 byte to be the cascade tag `0x88` (otherwise the call
returns 0), and then the returned UID (buffer bytes 3..9) is the 3
anticollision-1 bytes after the cascade tag followed by the 4
anticollision-2 bytes, with result 7.  `rdPad l n` is the first `n` bytes
the transport delivered for the corresponding read. -/
theorem C2_activateTypeA (o : TypeAOracle) (a l1 sk : List Nat)
    (h1 : o.loadRF = true) (h2 : o.offCrypto = true) (h3 : o.clearRxCrc = true)
    (h4 : o.clearTxCrc = true) (h5 : o.setIdle = true) (h6 : o.setTransceive = true)
    (h7 : o.ts0 = .waitTransmit) (h8 : o.sendReqa = true) (h9 : o.atqa = some a)
    (h10 : o.tsWaitOk = true) (h11 : o.sendAc1 = true) (h12 : o.rxBytes = 5)
    (h13 : o.ac1 = some l1) (h14 : o.enRxCrc1 = true) (h15 : o.enTxCrc1 = true)
    (h16 : o.sendSel1 = true) (h17 : o.sak1 = some sk) :
    ((sk.getD 0 0xFF) &&& 0x04 = 0 →
      (activateTypeA o (List.replicate 10 0)).1 = 4 ∧
      ((activateTypeA o (List.replicate 10 0)).2.drop 3).take 4 = rdPad l1 4) ∧
    ((sk.getD 0 0xFF) &&& 0x04 ≠ 0 → l1.getD 0 0xFF ≠ 0x88 →
      (activateTypeA o (List.replicate 10 0)).1 = 0) ∧
    (∀ l2 sk2, (sk.getD 0 0xFF) &&& 0x04 ≠ 0 → l1.getD 0 0xFF = 0x88 →
      o.clearRxCrc2 = true → o.clearTxCrc2 = true → o.sendAc2 = true →
      o.ac2 = some l2 → o.enRxCrc2 = true → o.enTxCrc2 = true →
      o.sendSel2 = true → o.sak2 = some sk2 →
      (activateTypeA o (List.replicate 10 0)).1 = 7 ∧
      ((activateTypeA o (List.replicate 10 0)).2.drop 3).take 7
        = (rdPad l1 4).drop 1 ++ rdPad l2 4) := by
  refine ⟨fun hs => ?_, fun hs hc => ?_, fun l2 sk2 hs hc h18 h19 h20 h21 h22 h23 h24 h25 => ?_⟩
  · simp only [activateTypeA, h1, h2, h3, h4, h5, h6, h7, h8, h9, h10, h11, h12, h13, h14,
      h15, h16, h17, replicate10_zero]
    simp only [List.getD_eq_getElem?_getD] at hs
    simp [hs, rdPad, wrAt, range4_eq]
  · simp only [activateTypeA, h1, h2, h3, h4, h5, h6, h7, h8, h9, h10, h11, h12, h13, h14,
      h15, h16, h17, replicate10_zero]
    simp only [List.getD_eq_getElem?_getD] at hs hc
    simp [hs, hc, rdPad, wrAt, range4_eq]
  · simp only [activateTypeA, h1, h2, h3, h4, h5, h6, h7, h8, h9, h10, h11, h12, h13, h14,
      h15, h16, h17, h18, h19, h20, h21, h22, h23, h24, h25, replicate10_zero]
    simp only [List.getD_eq_getElem?_getD] at hs hc
    simp [hs, hc, rdPad, wrAt, range4_eq]

/-- Claim C2, witness: the spec's example — SAK `0x24` (bit 3 set),
anticollision-1 `88 11 22 33` (+ BCC), anticollision-2 `44 55 66 77` (+ BCC)
— assembles UID `11 22 33 44 55 66 77` with result 7. -/
theorem C2_activateTypeA_witness :
    (activateTypeA
      ⟨true, true, true, true, true, true, .waitTransmit, true, some [0x44, 0x00], true, true,
       5, some [0x88, 0x11, 0x22, 0x33, 0xBB], true, true, true, some [0x24], true, true,
       true, some [0x44, 0x55, 0x66, 0x77, 0xCC], true, true, true, some [0x20]⟩
      (List.replicate 10 0)).1 = 7 ∧
    ((activateTypeA
      ⟨true, true, true, true, true, true, .waitTransmit, true, some [0x44, 0x00], true, true,
       5, some [0x88, 0x11, 0x22, 0x33, 0xBB], true, true, true, some [0x24], true, true,
       true, some [0x44, 0x55, 0x66, 0x77, 0xCC], true, true, true, some [0x20]⟩
      (List.replicate 10 0)).2.drop 3).take 7
      = [0x11, 0x22, 0x33, 0x44, 0x55, 0x66, 0x77] := by
  have h := (C2_activateTypeA
      ⟨true, true, true, true, true, true, .waitTransmit, true, some [0x44, 0x00], true, true,
       5, some [0x88, 0x11, 0x22, 0x33, 0xBB], true, true, true, some [0x24], true, true,
       true, some [0x44, 0x55, 0x66, 0x77, 0xCC], true, true, true, some [0x20]⟩
      [0x44, 0x00] [0x88, 0x11, 0x22, 0x33, 0xBB] [0x24]
      rfl rfl rfl rfl rfl rfl rfl rfl rfl rfl rfl rfl rfl rfl rfl rfl rfl).2.2
      [0x44, 0x55, 0x66, 0x77, 0xCC] [0x20] (by decide) (by decide)
      rfl rfl rfl rfl rfl rfl rfl rfl
  exact ⟨h.1, by rw [h.2]; decide⟩

theorem rcsValid_zero (resp : List Nat) : rcsValid 0 resp = false := by
  simp [rcsValid]

/-- Claim C3: `readCardSerial` composed with the activation result.  For a
successful activation (length 4 or 7), any of the listed invalidity
conditions on the response buffer forces return value 0; a negative
activation result (communication failure) is passed through; and a positive
return value equals the UID length, with the UID (response bytes from offset
3) copied to the caller. -/
theorem C3_readCardSerial (o : TypeAOracle) (len : Int) (resp : List Nat)
    (hact : activateTypeA o (List.replicate 10 0) = (len, resp)) :
    ((len = 4 ∨ len = 7) →
      ((resp.getD 0 0 = 0xFF ∧ resp.getD 1 0 = 0xFF) ∨
       resp.getD 3 0 = 0x00 ∨ resp.getD 3 0 = 0xFF ∨
       (len = 4 ∧ resp.getD 3 0 = 0x88) ∨
       (len = 7 ∧ (resp.getD 6 0 = 0x88 ∨
         (resp.getD 6 0 = 0x00 ∧ resp.getD 7 0 = 0x00 ∧
          resp.getD 8 0 = 0x00 ∧ resp.getD 9 0 = 0x00) ∨
         (resp.getD 6 0 = 0xFF ∧ resp.getD 7 0 = 0xFF ∧
          resp.getD 8 0 = 0xFF ∧ resp.getD 9 0 = 0xFF)))) →
      (readCardSerial o).1 = 0) ∧
    (len < 0 → (readCardSerial o).1 = len) ∧
    (0 < (readCardSerial o).1 →
      (readCardSerial o).1 = len ∧
      (readCardSerial o).2 = (List.range len.toNat).map fun i => resp.getD (i + 3) 0) := by
  have hrw : readCardSerial o = readCardSerialPost len resp := by
    unfold readCardSerial
    rw [hact]
  rw [hrw]
  refine ⟨fun hlen hrej => ?_, fun hneg => ?_, fun hpos => ?_⟩
  · have h04 : ¬ (len ≤ 0) := by rcases hlen with rfl | rfl <;> norm_num
    have h44 : ¬ (len < 4) := by rcases hlen with rfl | rfl <;> norm_num
    have hv : rcsValid (rcsLen2 len resp) resp = false := by
      by_cases hc2 : resp.getD 3 0 = 0x00 ∨ resp.getD 3 0 = 0xFF
      · rw [show rcsLen2 len resp = 0 from by unfold rcsLen2; exact if_pos hc2, rcsValid_zero]
      · by_cases hc1 : resp.getD 0 0 = 0xFF ∧ resp.getD 1 0 = 0xFF
        · rw [show rcsLen2 len resp = 0 from by
            unfold rcsLen2 rcsLen1; rw [if_neg hc2, if_pos hc1], rcsValid_zero]
        · have hL : rcsLen2 len resp = len := by
            unfold rcsLen2 rcsLen1; rw [if_neg hc2, if_neg hc1]
          rw [hL]
          rcases hrej with hA | h3 | h3 | ⟨hl4, h88⟩ | ⟨hl7, h7c⟩
          · exact absurd hA hc1
          · exact absurd (Or.inl h3) hc2
          · exact absurd (Or.inr h3) hc2
          · subst hl4
            simp only [rcsValid]
            rw [if_pos (show True ∧ resp.getD 3 0 = 0x88 from ⟨trivial, h88⟩)]
            simp only [ite_self]
          · subst hl7
            rcases h7c with h | h | h
            · simp only [rcsValid]
              rw [if_pos (show True ∧ resp.getD 6 0 = 0x88 from ⟨trivial, h⟩)]
              simp only [ite_self]
            · simp only [rcsValid]
              rw [if_pos (show True ∧ resp.getD 6 0 = 0x00 ∧ resp.getD 7 0 = 0x00 ∧
                resp.getD 8 0 = 0x00 ∧ resp.getD 9 0 = 0x00 from ⟨trivial, h.1, h.2.1, h.2.2.1, h.2.2.2⟩)]
              simp only [ite_self]
            · simp only [rcsValid]
              rw [if_pos (show True ∧ resp.getD 6 0 = 0xFF ∧ resp.getD 7 0 = 0xFF ∧
                resp.getD 8 0 = 0xFF ∧ resp.getD 9 0 = 0xFF from ⟨trivial, h.1, h.2.1, h.2.2.1, h.2.2.2⟩)]
    unfold readCardSerialPost
    rw [if_neg h04, if_neg h44, if_neg (by simp [hv])]
  · unfold readCardSerialPost
    rw [if_pos (le_of_lt hneg)]
  · by_cases h0 : len ≤ 0
    · exfalso
      unfold readCardSerialPost at hpos
      rw [if_pos h0] at hpos
      exact absurd hpos (by omega)
    · by_cases h4 : len < 4
      · exfalso
        unfold readCardSerialPost at hpos
        rw [if_neg h0, if_pos h4] at hpos
        exact absurd hpos (by norm_num)
      · by_cases hval : rcsValid (rcsLen2 len resp) resp = true
        · have hL : rcsLen2 len resp = len := by
            by_cases hc2 : resp.getD 3 0 = 0x00 ∨ resp.getD 3 0 = 0xFF
            · exfalso
              rw [show rcsLen2 len resp = 0 from by unfold rcsLen2; exact if_pos hc2,
                rcsValid_zero] at hval
              exact absurd hval (by simp)
            · by_cases hc1 : resp.getD 0 0 = 0xFF ∧ resp.getD 1 0 = 0xFF
              · exfalso
                rw [show rcsLen2 len resp = 0 from by
                  unfold rcsLen2 rcsLen1; rw [if_neg hc2, if_pos hc1], rcsValid_zero] at hval
                exact absurd hval (by simp)
              · unfold rcsLen2 rcsLen1
                rw [if_neg hc2, if_neg hc1]
          unfold readCardSerialPost
          rw [if_neg h0, if_neg h4, if_pos hval, hL]
          exact ⟨rfl, rfl⟩
        · exfalso
          unfold readCardSerialPost at hpos
          rw [if_neg h0, if_neg h4, if_neg hval] at hpos
          exact absurd hpos (by norm_num)

/-- Claim C3, witness: a 4-byte UID whose first byte is `0xFF` is rejected
with return 0; a clean 4-byte UID `04 12 34 56` passes the filter and is
copied to the caller with return 4. -/
theorem C3_readCardSerial_witness :
    (readCardSerial
      ⟨true, true, true, true, true, true, .waitTransmit, true, some [0x44, 0x00], true, true,
       5, some [0xFF, 0xAA, 0xBB, 0xCC, 0xDD], true, true, true, some [0x00], true, true,
       true, none, true, true, true, none⟩).1 = 0 ∧
    (readCardSerial
      ⟨true, true, true, true, true, true, .waitTransmit, true, some [0x44, 0x00], true, true,
       5, some [0x04, 0x12, 0x34, 0x56, 0x77], true, true, true, some [0x00], true, true,
       true, none, true, true, true, none⟩).1 = 4 ∧
    (readCardSerial
      ⟨true, true, true, true, true, true, .waitTransmit, true, some [0x44, 0x00], true, true,
       5, some [0x04, 0x12, 0x34, 0x56, 0x77], true, true, true, some [0x00], true, true,
       true, none, true, true, true, none⟩).2 = [0x04, 0x12, 0x34, 0x56] := by
  have h1 := (C3_readCardSerial
      ⟨true, true, true, true, true, true, .waitTransmit, true, some [0x44, 0x00], true, true,
       5, some [0xFF, 0xAA, 0xBB, 0xCC, 0xDD], true, true, true, some [0x00], true, true,
       true, none, true, true, true, none⟩
      4 [0xFF, 0xAA, 0x00, 0xFF, 0xAA, 0xBB, 0xCC, 0x00, 0x00, 0x00] (by decide)).1
      (Or.inl rfl) (Or.inr (Or.inr (Or.inl (by decide))))
  have h2 := (C3_readCardSerial
      ⟨true, true, true, true, true, true, .waitTransmit, true, some [0x44, 0x00], true, true,
       5, some [0x04, 0x12, 0x34, 0x56, 0x77], true, true, true, some [0x00], true, true,
       true, none, true, true, true, none⟩
      4 [0x04, 0x12, 0x00, 0x04, 0x12, 0x34, 0x56, 0x00, 0x00, 0x00] (by decide)).2.2
      (by decide)
  exact ⟨h1, h2.1, by rw [h2.2]; decide⟩

theorem pollSlot_none_or_some (maskLen maxTags slot : Nat) (sl : Slot) (st : GimState) :
    pollSlot maskLen maxTags slot sl st = none ∨
    (∃ v, pollSlot maskLen maxTags slot sl st
      = some { st with collision := st.collision.set st.numCol v,
                       numCol := st.numCol + 1, trace := st.trace ++ [PollEv.col v] }) ∨
    pollSlot maskLen maxTags slot sl st = some st ∨
    (∃ u, pollSlot maskLen maxTags slot sl st
      = some { st with uidBuf := wrAt st.uidBuf (st.numCard * 8) u,
                       numCard := st.numCard + 1, trace := st.trace ++ [PollEv.card u] }) := by
  simp only [pollSlot]
  by_cases h1 : sl.rxOk
  · rw [if_neg (by simp [h1])]
    by_cases h2 : (sl.rx >>> 18) &&& 1 = 1 ∧ st.numCol < maxTags
    · rw [if_pos h2]
      exact Or.inr (Or.inl ⟨_, rfl⟩)
    · rw [if_neg h2]
      by_cases h3 : sl.irq &&& RX_IRQ_STAT = 0 ∧ sl.rx % 512 = 0
      · rw [if_pos h3]
        exact Or.inr (Or.inr (Or.inl rfl))
      · rw [if_neg h3]
        by_cases h4 : sl.readOk
        · rw [if_neg (by simp [h4])]
          exact Or.inr (Or.inr (Or.inr ⟨_, rfl⟩))
        · rw [if_pos (by simp [h4])]
          exact Or.inl rfl
  · rw [if_pos (by simp [h1])]
    exact Or.inl rfl

theorem pollSlot_numCard_inv {maskLen maxTags slot : Nat} {sl : Slot} {st st' : GimState}
    (hinv : st.numCard = st.trace.countP isCard)
    (hp : pollSlot maskLen maxTags slot sl st = some st') :
    st'.numCard = st'.trace.countP isCard := by
  rcases pollSlot_none_or_some maskLen maxTags slot sl st with h | ⟨v, h⟩ | h | ⟨u, h⟩ <;>
    rw [h] at hp
  · cases hp
  · cases hp
    simp [List.countP_append, isCard, hinv]
  · cases hp
    exact hinv
  · cases hp
    simp [List.countP_append, isCard, hinv]

theorem pollSlot_trace_append {maskLen maxTags slot : Nat} {sl : Slot} {st st' : GimState}
    (hp : pollSlot maskLen maxTags slot sl st = some st') :
    ∃ t, st'.trace = st.trace ++ t := by
  rcases pollSlot_none_or_some maskLen maxTags slot sl st with h | ⟨v, h⟩ | h | ⟨u, h⟩ <;>
    rw [h] at hp
  · cases hp
  · cases hp
    exact ⟨_, rfl⟩
  · cases hp
    exact ⟨[], by simp⟩
  · cases hp
    exact ⟨_, rfl⟩

theorem pollSlots_numCard_inv {maskLen maxTags : Nat} {slots : List Slot} :
    ∀ {slot : Nat} {st st' : GimState}, st.numCard = st.trace.countP isCard →
    pollSlots maskLen maxTags slot slots st = some st' →
    st'.numCard = st'.trace.countP isCard := by
  induction slots with
  | nil =>
    intro slot st st' hinv hp
    cases hp
    exact hinv
  | cons sl rest ih =>
    intro slot st st' hinv hp
    simp only [pollSlots] at hp
    cases hps : pollSlot maskLen maxTags slot sl st with
    | none => rw [hps] at hp; cases hp
    | some st1 =>
      rw [hps] at hp
      simp only at hp
      have hinv1 := pollSlot_numCard_inv hinv hps
      by_cases h16 : slot + 1 < 16
      · rw [if_pos h16] at hp
        split_ifs at hp
        all_goals first | cases hp | exact ih hinv1 hp
      · rw [if_neg h16] at hp
        exact ih hinv1 hp

theorem pollSlots_trace_append {maskLen maxTags : Nat} {slots : List Slot} :
    ∀ {slot : Nat} {st st' : GimState},
    pollSlots maskLen maxTags slot slots st = some st' →
    ∃ t, st'.trace = st.trace ++ t := by
  induction slots with
  | nil =>
    intro slot st st' hp
    cases hp
    exact ⟨[], by simp⟩
  | cons sl rest ih =>
    intro slot st st' hp
    simp only [pollSlots] at hp
    cases hps : pollSlot maskLen maxTags slot sl st with
    | none => rw [hps] at hp; cases hp
    | some st1 =>
      rw [hps] at hp
      simp only at hp
      obtain ⟨t1, ht1⟩ := pollSlot_trace_append hps
      by_cases h16 : slot + 1 < 16
      · rw [if_pos h16] at hp
        split_ifs at hp
        all_goals first
          | cases hp
          | (obtain ⟨t2, ht2⟩ := ih hp
             exact ⟨t1 ++ t2, by rw [ht2, ht1, List.append_assoc]⟩)
      · rw [if_neg h16] at hp
        obtain ⟨t2, ht2⟩ := ih hp
        exact ⟨t1 ++ t2, by rw [ht2, ht1, List.append_assoc]⟩

theorem inventoryPoll_numCard_inv {r : Round} {maxTags : Nat} {st : GimState}
    (hinv : st.numCard = st.trace.countP isCard) :
    (inventoryPoll r maxTags st).2.numCard
      = (inventoryPoll r maxTags st).2.trace.countP isCard := by
  have hinv0 : ({ st with trace := st.trace ++ [PollEv.sent (invRequest st.numCol
      (st.collision.getD 0 0) (st.collision.getD 1 0))] } : GimState).numCard
      = ({ st with trace := st.trace ++ [PollEv.sent (invRequest st.numCol
          (st.collision.getD 0 0) (st.collision.getD 1 0))] } : GimState).trace.countP
          isCard := by
    simp [List.countP_append, isCard, hinv]
  simp only [inventoryPoll]
  by_cases h1 : r.clrOk
  · rw [if_neg (by simp [h1])]
    by_cases h2 : r.sendOk
    · rw [if_neg (by simp [h2])]
      cases hps : pollSlots (invMaskLen st.numCol (st.collision.getD 0 0)) maxTags 0
          (fill16 r.slots) { st with trace := st.trace ++ [PollEv.sent (invRequest st.numCol
            (st.collision.getD 0 0) (st.collision.getD 1 0))] } with
      | none => exact hinv0
      | some st1 =>
        have h := pollSlots_numCard_inv hinv0 hps
        dsimp only
        split_ifs <;> exact h
    · rw [if_pos (by simp [h2])]
      exact hinv
  · rw [if_pos (by simp [h1])]
    exact hinv

theorem shiftCol_numCard_inv {st : GimState}
    (hinv : st.numCard = st.trace.countP isCard) :
    (shiftCol st).numCard = (shiftCol st).trace.countP isCard := hinv

theorem gimLoop_ok_inv {maxTags : Nat} {rounds : List Round} :
    ∀ {st : GimState} {rc : ISO15693ErrorCode} {st' : GimState},
    st.numCard = st.trace.countP isCard →
    gimLoop maxTags rounds st = some (rc, st') →
    (rc = .ok → st'.numCol = 0) ∧ st'.numCard = st'.trace.countP isCard := by
  induction rounds with
  | nil =>
    intro st rc st' hinv hp
    simp only [gimLoop] at hp
    by_cases h0 : st.numCol = 0
    · rw [if_pos h0] at hp
      cases hp
      exact ⟨fun _ => h0, hinv⟩
    · rw [if_neg h0] at hp
      cases hp
  | cons r rest ih =>
    intro st rc st' hinv hp
    simp only [gimLoop] at hp
    by_cases h0 : st.numCol = 0
    · rw [if_pos h0] at hp
      cases hp
      exact ⟨fun _ => h0, hinv⟩
    · rw [if_neg h0] at hp
      by_cases hrc : (inventoryPoll r maxTags st).1 = .ok
      · rw [if_pos hrc] at hp
        exact ih (shiftCol_numCard_inv (inventoryPoll_numCard_inv hinv)) hp
      · rw [if_neg hrc] at hp
        cases hp
        refine ⟨fun h => ?_, inventoryPoll_numCard_inv hinv⟩
        cases h

/-- Claim C4: (i) during a poll with mask length 0, a collision in time slot
`slot` with spare capacity is recorded as the 16-bit value `slot` itself;
(ii) a follow-up poll whose single outstanding collision record is `s`
computes a mask length of 1 nibble and sends the inventory request
`[flags, cmd, 4, s]` — mask-length field 4 bits, first mask byte carrying
`s` in its low nibble; (iii) `getInventoryMultiple` returns success only
with the outstanding collision count at zero, and then its card count
equals the number of UIDs recorded during the polls. -/
theorem C4_getInventoryMultiple :
    (∀ (maxTags slot : Nat) (sl : Slot) (st : GimState), slot < 16 → sl.rxOk = true →
      (sl.rx >>> 18) &&& 1 = 1 → st.numCol < maxTags →
      pollSlot 0 maxTags slot sl st
        = some { st with collision := st.collision.set st.numCol slot,
                         numCol := st.numCol + 1, trace := st.trace ++ [PollEv.col slot] }) ∧
    (∀ (r : Round) (maxTags : Nat) (st : GimState) (s : Nat), s < 16 → st.numCol = 1 →
      st.collision.getD 0 0 = s → r.clrOk = true → r.sendOk = true →
      invMaskLen st.numCol (st.collision.getD 0 0) = 1 ∧
      invRequest st.numCol (st.collision.getD 0 0) (st.collision.getD 1 0) = [6, 1, 4, s] ∧
      (invRequest st.numCol (st.collision.getD 0 0) (st.collision.getD 1 0)).getD 3 0 % 16
        = s ∧
      ∃ t, (inventoryPoll r maxTags st).2.trace
        = st.trace ++ PollEv.sent [6, 1, 4, s] :: t) ∧
    (∀ (rounds : List Round) (maxTags : Nat) (uid0 : List Nat) (rc : ISO15693ErrorCode)
      (st' : GimState), getInventoryMultiple rounds maxTags uid0 = some (rc, st') →
      rc = .ok → st'.numCol = 0 ∧ st'.numCard = st'.trace.countP isCard) := by
  refine ⟨?_, ?_, ?_⟩
  · intro maxTags slot sl st hs16 hrx hbit hcap
    simp only [pollSlot]
    rw [if_neg (by simp [hrx]), if_pos ⟨hbit, hcap⟩]
    have hv : (if 0 < (0 : Nat) then
        (st.collision.getD 0 0 ||| slot <<< (0 * 4)) % 65536
        else slot <<< (0 * 4) % 65536) = slot := by
      rw [if_neg (by norm_num)]
      have h1 : slot <<< (0 * 4) = slot := by
        rw [Nat.zero_mul, Nat.shiftLeft_zero]
      rw [h1, Nat.mod_eq_of_lt (by omega)]
    rw [hv]
  · intro r maxTags st s hs hcol hc0 hclr hsend
    have hm1 : invMaskLen 1 s = 1 := by
      simp [invMaskLen, nibbles, nibblesGo, Nat.div_eq_of_lt hs]
    have hreq : invRequest 1 s (st.collision.getD 1 0) = [6, 1, 4, s] := by
      unfold invRequest
      rw [hm1]
      have h4 : (invFrame 1 s (st.collision.getD 1 0)).take (invCmdLen 1)
          = [6, 1, 4, s % 256] := rfl
      rw [h4, Nat.mod_eq_of_lt (by omega)]
    rw [hcol, hc0]
    refine ⟨hm1, hreq, by rw [hreq]; exact Nat.mod_eq_of_lt hs, ?_⟩
    simp only [inventoryPoll]
    rw [if_neg (by simp [hclr]), if_neg (by simp [hsend]), hcol, hc0, hreq, hm1]
    cases hps : pollSlots 1 maxTags 0 (fill16 r.slots)
        { st with numCol := 1, trace := st.trace ++ [PollEv.sent [6, 1, 4, s]] } with
    | none => exact ⟨[], rfl⟩
    | some st1 =>
      obtain ⟨t2, ht2⟩ := pollSlots_trace_append hps
      dsimp only
      split_ifs <;> exact ⟨t2, by rw [ht2]; simp⟩
  · intro rounds maxTags uid0 rc st' hg hrc
    cases rounds with
    | nil => cases hg
    | cons r rest =>
      simp only [getInventoryMultiple] at hg
      by_cases hok : (inventoryPoll r maxTags
          { numCard := 0, uidBuf := uid0, numCol := 0,
            collision := List.replicate maxTags 0, trace := [] }).1 = ISO15693ErrorCode.ok
      · rw [if_pos hok] at hg
        have h := gimLoop_ok_inv (inventoryPoll_numCard_inv rfl) hg
        exact ⟨h.1 hrc, h.2⟩
      · rw [if_neg hok] at hg
        cases hg
        cases hrc

/-- Claim C4, witness: a device colliding in slot 3 of the first round
(mask length 0) and answering one card in the follow-up round.  The
collision is recorded as `3`, the follow-up request is `[6, 1, 4, 3]`, and
`getInventoryMultiple` terminates with success, zero outstanding collisions
and a card count of 1 — the number of recorded UIDs. -/
theorem C4_getInventoryMultiple_witness :
    pollSlot 0 1 3 ⟨0, true, 262144, true, [], true, true, true⟩
        ⟨0, List.replicate 8 0, 0, [0], [PollEv.sent [6, 1, 0]]⟩
      = some ⟨0, List.replicate 8 0, 1, [3], [PollEv.sent [6, 1, 0], PollEv.col 3]⟩ ∧
    invMaskLen 1 3 = 1 ∧
    invRequest 1 3 0 = [6, 1, 4, 3] ∧
    (⟨1, [1, 2, 3, 4, 5, 6, 7, 8], 0, [3],
        [PollEv.sent [6, 1, 0], PollEv.col 3, PollEv.sent [6, 1, 4, 3],
         PollEv.card [1, 2, 3, 4, 5, 6, 7, 8]]⟩ : GimState).numCol = 0 ∧
    (⟨1, [1, 2, 3, 4, 5, 6, 7, 8], 0, [3],
        [PollEv.sent [6, 1, 0], PollEv.col 3, PollEv.sent [6, 1, 4, 3],
         PollEv.card [1, 2, 3, 4, 5, 6, 7, 8]]⟩ : GimState).numCard
      = List.countP isCard (⟨1, [1, 2, 3, 4, 5, 6, 7, 8], 0, [3],
          [PollEv.sent [6, 1, 0], PollEv.col 3, PollEv.sent [6, 1, 4, 3],
           PollEv.card [1, 2, 3, 4, 5, 6, 7, 8]]⟩ : GimState).trace := by
  have h1 := C4_getInventoryMultiple.1 1 3 ⟨0, true, 262144, true, [], true, true, true⟩
      ⟨0, List.replicate 8 0, 0, [0], [PollEv.sent [6, 1, 0]]⟩
      (by decide) rfl (by decide) (by decide)
  have h2 := C4_getInventoryMultiple.2.1
      ⟨true, true, [⟨1, true, 10, true, [0, 0, 1, 2, 3, 4, 5, 6, 7, 8], true, true, true⟩],
       true, true⟩ 1
      ⟨0, List.replicate 8 0, 1, [3], [PollEv.sent [6, 1, 0], PollEv.col 3]⟩ 3
      (by decide) rfl rfl rfl rfl
  have h3 := C4_getInventoryMultiple.2.2
      [⟨true, true, [⟨0, true, 0, true, [], true, true, true⟩,
                     ⟨0, true, 0, true, [], true, true, true⟩,
                     ⟨0, true, 0, true, [], true, true, true⟩,
                     ⟨0, true, 262144, true, [], true, true, true⟩], true, true⟩,
       ⟨true, true, [⟨1, true, 10, true, [0, 0, 1, 2, 3, 4, 5, 6, 7, 8], true, true, true⟩],
        true, true⟩] 1 (List.replicate 8 0) .ok
      ⟨1, [1, 2, 3, 4, 5, 6, 7, 8], 0, [3],
       [PollEv.sent [6, 1, 0], PollEv.col 3, PollEv.sent [6, 1, 4, 3],
        PollEv.card [1, 2, 3, 4, 5, 6, 7, 8]]⟩ (by decide) rfl
  exact ⟨by rw [h1]; decide, h2.1, h2.2.1, h3.1, h3.2⟩

end PN5180
